import Mathlib

/-!
# Verification of the DOCX→PDF conversion service core (`app.py`)

A shallow embedding of the queue/worker/conversion/delivery pipeline of the
FastAPI service in `app.py`.  Pure decision logic (sanitization, engine
selection, the delivery retry loop, the cleanup condition, the process
reaper's kill decisions, per-endpoint configuration) is transcribed into
executable Lean definitions; external nondeterminism (engine availability,
engine invocation results, network responses) is supplied by an environment
record, and the local artifact filesystem is modelled as the presence bits
of the job's two derived paths, with `os.remove` assumed to succeed.
-/

namespace ConverterService

/-! ## Job status values (the strings written into `queue_status[...]["status"]`) -/

inductive Status where
  | queued
  | processing
  | completed
  | error
deriving DecidableEq, Repr

/-! ## Target-key sanitization (`process_single_conversion`, lines 674-677)

`safe_name = re.sub(r"[^A-Za-z0-9._-]", "_", request.nomor_urut).strip()`
followed by rejection when `not safe_name or safe_name in {".", ".."}`. -/

/-- One character of `re.sub(r"[^A-Za-z0-9._-]", "_", s)`: characters outside
`A-Za-z0-9._-` are replaced by an underscore. -/
def sanitizeChar (c : Char) : Char :=
  if c.isAlphanum || c = '.' || c = '_' || c = '-' then c else '_'

/-- Python's `str.strip()`: drop leading and trailing whitespace. -/
def stripChars (l : List Char) : List Char :=
  ((l.dropWhile Char.isWhitespace).reverse.dropWhile Char.isWhitespace).reverse

/-- Character-wise lower-casing (`str.lower()`). -/
def lowercase (s : String) : String :=
  ⟨s.data.map Char.toLower⟩

/-- Python `s.endswith(p)`. -/
def strEndsWith (s p : String) : Bool :=
  p.data.isSuffixOf s.data

/-- The sanitizer `re.sub(r"[^A-Za-z0-9._-]", "_", s).strip()`. -/
def sanitize (s : String) : String :=
  ⟨stripChars (s.data.map sanitizeChar)⟩

/-- The test `not safe_name or safe_name in (".", "..")` — the worker-side
rejection condition on the sanitized target key. -/
def invalidSafeName (s : String) : Bool :=
  s == "" || s == "." || s == ".."

/-! ## Admission (`convert_docx_to_pdf` / `convert_docx_to_pdf_dua`, lines 997-1124)

The endpoint validates only that the declared filename ends in `.docx`
(case-insensitively), then unconditionally creates a status-table entry with
status `"queued"` and puts the request on the queue.  `nomor_urut` is not
inspected at admission. -/

/-- The queue (request ids in FIFO order) and the status table
(`queue_status`: association list request id ↦ status). -/
structure AdmissionState where
  queue : List String
  table : List (String × Status)
deriving DecidableEq, Repr

/-- The admission endpoint body: reject unless `filename.lower().endswith(".docx")`,
otherwise append a `"queued"` status entry and enqueue the request.  Returns the
new state on acceptance, the HTTP 400 detail on rejection. -/
def admitRequest (filename nomor_urut request_id : String) (s : AdmissionState) :
    Except String AdmissionState :=
  if !(strEndsWith (lowercase filename) ".docx") then
    Except.error "File harus berformat .docx"
  else
    -- nomor_urut is not validated here; it only travels inside the request
    let _ := nomor_urut
    Except.ok { queue := s.queue ++ [request_id]
                table := s.table ++ [(request_id, Status.queued)] }

/-! ## Engine availability and orchestration (`process_single_conversion`, lines 756-795) -/

inductive Engine where
  | libreoffice
  | ms_word
deriving DecidableEq, Repr

/-- Result of `check_conversion_engines()`: availability of each engine. -/
structure Engines where
  libreoffice : Bool
  ms_word : Bool
deriving DecidableEq, Repr

structure OrchestrationResult where
  /-- The engines actually invoked, in invocation order. -/
  attempts : List Engine
  /-- Value of `conversion_success` at the end of the engine-selection block. -/
  success : Bool
  /-- Value of `fallback_used`. -/
  fallback_used : Bool
deriving DecidableEq, Repr

/-- Lines 765-795: try LibreOffice first when available (`lo_ok` is the result
of that invocation); if `conversion_success` is still false and MS Word is
available, invoke the docx2pdf fallback (result `word_ok`). -/
def orchestrate (engines : Engines) (lo_ok word_ok : Bool) : OrchestrationResult :=
  let afterLo : List Engine × Bool :=
    if engines.libreoffice then ([Engine.libreoffice], lo_ok) else ([], false)
  if !afterLo.2 && engines.ms_word then
    { attempts := afterLo.1 ++ [Engine.ms_word], success := word_ok, fallback_used := true }
  else
    { attempts := afterLo.1, success := afterLo.2, fallback_used := false }

/-! ## Per-endpoint delivery configuration (`process_single_conversion`, lines 841-855) -/

/-- Lines 842-847: the endpoint path suffix appended to the target URL. -/
def post_url_suffix (endpoint_type : String) : String :=
  if endpoint_type == "convertDua" then "/check/responseBalikConvertDua"
  else "/check/responseBalikConvert"

/-- Per-endpoint retry budget, lines 842-847: `max_retries` is assigned 3 in both branches of the
`endpoint_type` conditional. -/
def max_retries (endpoint_type : String) : Nat :=
  if endpoint_type == "convertDua" then 3 else 3

/-- The `httpx.Timeout(total, connect=...)` pair, in seconds. -/
structure TimeoutConfig where
  total : Nat
  connect : Nat
deriving DecidableEq, Repr

/-- Line 855: `Timeout(90.0, connect=15.0)` for `convertDua`,
`Timeout(60.0, connect=10.0)` otherwise. -/
def timeout_config (endpoint_type : String) : TimeoutConfig :=
  if endpoint_type == "convertDua" then { total := 90, connect := 15 }
  else { total := 60, connect := 10 }

/-! ## The delivery retry loop (`process_single_conversion`, lines 849-885)

Each iteration either raises a transport error (`httpx.HTTPError` /
`TimeoutException`) or yields a response.  A response body is modelled as
`Option (List String)`: `none` when `resp.json()` raises, otherwise the list
of the parsed object's keys (so Python's truthiness test `resp_json` is
`keys ≠ []` and `"upload_data" in resp_json` is key membership). -/

/-- What the network does on one `client.post` attempt. -/
inductive AttemptOutcome where
  | transportError
  | response (status : Nat) (json : Option (List String))
deriving DecidableEq, Repr

/-- How the delivery block finishes: an exception propagating to the worker,
or the final `resp` falling through to the cleanup block. -/
inductive DeliveryResult where
  | raised (msg : String)
  | responded (status : Nat) (json : Option (List String))
deriving DecidableEq, Repr

/-- Observable trace of the retry loop: how many `client.post` attempts were
made, the `asyncio.sleep` delays performed (in order), and the outcome. -/
structure DeliveryTrace where
  attempts : Nat
  delays : List Nat
  result : DeliveryResult
deriving DecidableEq, Repr

/-- The `for attempt in range(max_retries + 1)` loop, lines 853-885, run on the
list of per-attempt outcomes (the list has `max_retries + 1` entries; a
shorter tail means the remaining iterations would not happen).  `retry_delay`
starts at 1 and doubles only after a slept retry.  A status `< 500` breaks the
loop; a 5xx response on a non-final attempt just continues (no sleep, no
doubling); a transport error on a non-final attempt sleeps `retry_delay` then
doubles it; a transport error on the final attempt re-raises; a 5xx on the
final attempt leaves that response as `resp` for the code after the loop.
The empty list models `resp is None` (line 884). -/
def deliveryRun (retry_delay : Nat) : List AttemptOutcome → DeliveryTrace
  | [] => { attempts := 0, delays := [], result := .raised "Tidak ada response dari target server" }
  | [o] =>
    match o with
    | .transportError =>
      { attempts := 1, delays := [],
        result := .raised "Gagal upload ke target setelah percobaan" }
    | .response st js => { attempts := 1, delays := [], result := .responded st js }
  | o :: rest =>
    match o with
    | .transportError =>
      let t := deliveryRun (retry_delay * 2) rest
      { attempts := t.attempts + 1, delays := retry_delay :: t.delays, result := t.result }
    | .response st js =>
      if st < 500 then { attempts := 1, delays := [], result := .responded st js }
      else
        let t := deliveryRun retry_delay rest
        { attempts := t.attempts + 1, delays := t.delays, result := t.result }

/-- The delivery block for an endpoint type: the loop runs over
`range(max_retries + 1)` attempts with initial `retry_delay = 1`. -/
def deliver (endpoint_type : String) (outcomes : Nat → AttemptOutcome) : DeliveryTrace :=
  deliveryRun 1 ((List.range (max_retries endpoint_type + 1)).map outcomes)

/-- The test on line 907: `200 <= resp.status_code < 300 and resp_json and "upload_data" in resp_json`. -/
def cleanupCondition (status : Nat) (json : Option (List String)) : Bool :=
  (200 ≤ status && status < 300) &&
    (match json with
     | some keys => !keys.isEmpty && keys.contains "upload_data"
     | none => false)

/-! ## The full per-job pipeline (`process_single_conversion`, lines 672-932)

The local filesystem is modelled as the presence of the job's two derived
artifact paths (`{safe_name}.docx`, `{safe_name}.pdf`); `os.remove` is assumed
to succeed.  External nondeterminism is an `Env`. -/

/-- Presence of the job's two local artifact files. -/
structure FileState where
  docx : Bool
  pdf : Bool
deriving DecidableEq, Repr

/-- External world for one job: engine availability, the result each engine
invocation would have, whether a failed conversion left a (partial) PDF on
disk, and the per-attempt network outcomes of the delivery loop. -/
structure Env where
  engines : Engines
  lo_ok : Bool
  word_ok : Bool
  leftoverPdf : Bool
  delivery : Nat → AttemptOutcome

/-- How `process_single_conversion` finishes, as seen by the worker loop:
either a raised exception (the worker records `"error"`), or a normal return
of the result dict (the worker records `"completed"`).  `ok` carries
`files_cleaned` and `target_status`. -/
inductive JobResult where
  | validationError (detail : String)
  | conversionFailed (msg : String)
  | deliveryFailed (msg : String)
  | ok (files_cleaned : Bool) (target_status : Nat) (target_json : Option (List String))
deriving DecidableEq, Repr

/-- Everything observable about one processed job. -/
structure JobFinal where
  result : JobResult
  files : FileState
  engineAttempts : List Engine
  deliveryTrace : Option DeliveryTrace
deriving Repr

/-- Lines 799-804: on conversion failure both `path_docx` and `path_pdf` are
removed if they exist, so both end up absent. -/
def cleanupOnConversionFailure (fs : FileState) : FileState :=
  let _ := fs
  { docx := false, pdf := false }

/-- The aggregated conversion-failure message, lines 806-828. -/
def conversionErrorParts (engines : Engines) (fallback_used : Bool) : List String :=
  (if engines.libreoffice then ["LibreOffice conversion failed"]
   else ["LibreOffice not available"]) ++
  (if engines.ms_word then
     (if fallback_used then ["MS Word fallback also failed"]
      else ["MS Word fallback not attempted"])
   else ["MS Word not available"])

/-- Model of `process_single_conversion(request)` for a request with the given
`nomor_urut` and `endpoint_type`, in environment `env`. -/
def process_single_conversion (nomor_urut endpoint_type : String) (env : Env) : JobFinal :=
  let safe_name := sanitize nomor_urut
  if invalidSafeName safe_name then
    -- line 677: HTTPException(400) raised before any file is written
    { result := .validationError "nomor_urut tidak valid setelah sanitasi"
      files := { docx := false, pdf := false }
      engineAttempts := []
      deliveryTrace := none }
  else
    -- lines 736-742: the uploaded DOCX is saved; a successful conversion
    -- produces the PDF, a failed one leaves at most a partial PDF
    let orch := orchestrate env.engines env.lo_ok env.word_ok
    if !orch.success then
      { result := .conversionFailed
          (String.intercalate ", " (conversionErrorParts env.engines orch.fallback_used))
        files := cleanupOnConversionFailure { docx := true, pdf := env.leftoverPdf }
        engineAttempts := orch.attempts
        deliveryTrace := none }
    else
      let fs : FileState := { docx := true, pdf := true }
      let t := deliver endpoint_type env.delivery
      match t.result with
      | .raised msg =>
        -- the exception propagates out of the delivery block; the cleanup
        -- block (lines 904-922) is never reached
        { result := .deliveryFailed msg, files := fs
          engineAttempts := orch.attempts, deliveryTrace := some t }
      | .responded st js =>
        if cleanupCondition st js then
          { result := .ok true st js
            files := { docx := false, pdf := false }
            engineAttempts := orch.attempts, deliveryTrace := some t }
        else
          { result := .ok false st js, files := fs
            engineAttempts := orch.attempts, deliveryTrace := some t }

/-! ## The worker loop (`process_conversion_queue`, lines 136-178)

For each dequeued request the worker writes `"processing"` (with
`started_at`/`worker_id`), awaits `process_single_conversion`, and then writes
`"completed"` on a normal return (line 153) or `"error"` on any exception
(line 161) — `HTTPException` is an `Exception`, so the validation failure is
caught here too. -/

/-- The terminal status the worker writes for a job outcome. -/
def workerTerminalStatus : JobResult → Status
  | .ok _ _ _ => Status.completed
  | _ => Status.error

/-- The complete sequence of status values written into
`queue_status[request_id]["status"]` for one admitted request: `"queued"` at
admission (line 1038), `"processing"` at dequeue (line 142), then exactly one
terminal write (line 153 or 161). -/
def statusWrites (nomor_urut endpoint_type : String) (env : Env) : List Status :=
  [Status.queued, Status.processing,
   workerTerminalStatus (process_single_conversion nomor_urut endpoint_type env).result]

/-! ## Engine-invoker timeout handling

The effects each invoker performs when its timeout fires, transcribed from
the `except` branches. -/

inductive InvokerEffect where
  /-- Action `proc.terminate()` -/
  | procTerminate
  /-- Action `proc.wait(timeout=n)` / `proc.wait()` -/
  | procWait (timeout : Option Nat)
  /-- Action `proc.kill()` -/
  | procKill
  /-- Action `future.cancel()` -/
  | futureCancel
deriving DecidableEq, Repr

/-- Timeout path of `convert_with_libreoffice`, lines 582-595: on `subprocess.TimeoutExpired`
the child is terminated, waited on for up to 5 s, and killed (then reaped) if
it has not exited within that grace window; the function returns `False`. -/
def libreofficeTimeoutEffects (exitsWithinGrace : Bool) : List InvokerEffect :=
  if exitsWithinGrace then
    [.procTerminate, .procWait (some 5)]
  else
    [.procTerminate, .procWait (some 5), .procKill, .procWait none]

/-- Return value of `convert_with_libreoffice` on timeout (line 595). -/
def libreofficeTimeoutReturns : Bool := false

/-- Timeout path of `convert_with_timeout` (the docx2pdf / MS Word invoker), lines 331-338: on
`FutureTimeoutError` the only action taken is `future.cancel()` — no external
process is terminated or killed — and the function returns `False`. -/
def wordTimeoutEffects : List InvokerEffect := [.futureCancel]

/-- Return value of `convert_with_timeout` on timeout (line 338). -/
def wordTimeoutReturns : Bool := false

/-! ## The process reaper (`cleanup_hanging_processes`, lines 447-525)

With `psutil` the sweep inspects every process; without it, it falls back to
`taskkill /f /im soffice.exe|soffice.bin` on Windows and
`pkill -f "soffice.*--headless"` elsewhere. -/

/-- Python's `needle in hay` on strings: `needle` occurs contiguously in `hay`. -/
def listContains (needle : List Char) : List Char → Bool
  | [] => needle.isEmpty
  | c :: t => needle.isPrefixOf (c :: t) || listContains needle t

/-- Python `needle in hay` for strings. -/
def strContains (hay needle : String) : Bool :=
  listContains needle.data hay.data

/-- The suffix of `hay` after the first occurrence of `needle`
(`none` if `needle` does not occur). -/
def suffixAfterFirst (needle : List Char) : List Char → Option (List Char)
  | [] => if needle.isEmpty then some [] else none
  | c :: t =>
    if needle.isPrefixOf (c :: t) then some ((c :: t).drop needle.length)
    else suffixAfterFirst needle t

/-- Whether `pkill -f "soffice.*--headless"` matches a command line: some
occurrence of `soffice` is followed, anywhere later, by `--headless`
(equivalently, `--headless` occurs after the first `soffice`). -/
def matchesSofficeHeadless (cmd : String) : Bool :=
  match suffixAfterFirst "soffice".data cmd.data with
  | some rest => listContains "--headless".data rest
  | none => false

/-- One running process as seen by the reaper: pid, executable name, command
line, and its age `now - create_time` in seconds (`none` when `create_time()`
raises, lines 473-475/486-487). -/
structure ProcInfo where
  pid : Nat
  name : String
  cmdline : String
  createAge : Option Nat
deriving DecidableEq, Repr

/-- The age gate used in both psutil branches, lines 460-462 and 481-482:
kill only when `(datetime.now().timestamp() - create_time) > 300`; when
`create_time()` raised (`none`), do not kill. -/
def oldEnough : Option Nat → Bool
  | some age => decide (300 < age)
  | none => false

/-- The psutil sweep's per-process kill decision, lines 452-487: a LibreOffice
headless process (name containing `soffice` or `libreoffice`, command line
containing `--headless`) is terminated only when its age exceeds 300 s;
on Windows a `winword` process likewise only when older than 300 s; a process
whose creation time cannot be read is never killed. -/
def psutilKillDecision (platformWin : Bool) (p : ProcInfo) : Bool :=
  if (strContains (lowercase p.name) "soffice" || strContains (lowercase p.name) "libreoffice")
      && strContains (lowercase p.cmdline) "--headless" then
    oldEnough p.createAge
  else if platformWin && strContains (lowercase p.name) "winword" then
    oldEnough p.createAge
  else false

/-- The processes the psutil sweep terminates. -/
def cleanup_psutil (platformWin : Bool) (procs : List ProcInfo) : List ProcInfo :=
  procs.filter (psutilKillDecision platformWin)

/-- The fallback sweep's per-process kill decision, lines 501-525:
`taskkill /f /im soffice.exe` + `taskkill /f /im soffice.bin` on Windows,
`pkill -f "soffice.*--headless"` elsewhere.  No age is consulted. -/
def fallbackKillDecision (platformWin : Bool) (p : ProcInfo) : Bool :=
  if platformWin then p.name == "soffice.exe" || p.name == "soffice.bin"
  else matchesSofficeHeadless p.cmdline

/-- The processes the fallback sweep terminates. -/
def cleanup_fallback (platformWin : Bool) (procs : List ProcInfo) : List ProcInfo :=
  procs.filter (fallbackKillDecision platformWin)

/-- Model of `cleanup_hanging_processes()`: the psutil sweep when psutil imported,
otherwise the fallback sweep.  Returns the processes terminated. -/
def cleanup_hanging_processes (psutilAvailable platformWin : Bool)
    (procs : List ProcInfo) : List ProcInfo :=
  if psutilAvailable then cleanup_psutil platformWin procs
  else cleanup_fallback platformWin procs

/-! ## Spec-side predicates and concrete test environments -/

/-- Number of loop iterations that fail with a transport error and are
followed by a further attempt (these are exactly the iterations that sleep,
lines 876-880). -/
def countTransportRetried : List AttemptOutcome → Nat
  | [] => 0
  | [_] => 0
  | .transportError :: rest => countTransportRetried rest + 1
  | .response st _ :: rest => if st < 500 then 0 else countTransportRetried rest

/-- The exponential-backoff delay sequence: `n` delays starting at `d`,
doubling each time (`doublingFrom 1 3 = [1, 2, 4]`). -/
def doublingFrom (d : Nat) : Nat → List Nat
  | 0 => []
  | n + 1 => d :: doublingFrom (d * 2) n

/-- Spec-side success condition for delivery: the final response has a 2xx
status and its parsed JSON body contains the `"upload_data"` key. -/
def DeliveredWithMarker (t : DeliveryTrace) : Prop :=
  ∃ st keys, t.result = .responded st (some keys) ∧
    200 ≤ st ∧ st < 300 ∧ "upload_data" ∈ keys

/-- Environment: only LibreOffice available and succeeding, every delivery
attempt answered `200` with the `upload_data` marker. -/
def envHappy : Env :=
  { engines := { libreoffice := true, ms_word := false }
    lo_ok := true, word_ok := false, leftoverPdf := false
    delivery := fun _ => .response 200 (some ["upload_data"]) }

/-- Environment: conversion succeeds but every delivery attempt returns a
500 response. -/
def env5xx : Env :=
  { engines := { libreoffice := true, ms_word := false }
    lo_ok := true, word_ok := false, leftoverPdf := false
    delivery := fun _ => .response 500 none }

/-- Environment: conversion succeeds but every delivery attempt raises a
transport error. -/
def envTransportFail : Env :=
  { engines := { libreoffice := true, ms_word := false }
    lo_ok := true, word_ok := false, leftoverPdf := false
    delivery := fun _ => .transportError }

/-- Environment: no conversion engine is available. -/
def envNoEngines : Env :=
  { engines := { libreoffice := false, ms_word := false }
    lo_ok := false, word_ok := false, leftoverPdf := true
    delivery := fun _ => .response 200 (some ["upload_data"]) }

/-- A LibreOffice headless process that started 6 minutes (360 s) ago. -/
def procOld : ProcInfo :=
  { pid := 11, name := "soffice.bin", cmdline := "soffice --headless --convert-to pdf a.docx"
    createAge := some 360 }

/-- A LibreOffice headless process that started 10 seconds ago. -/
def procYoung : ProcInfo :=
  { pid := 12, name := "soffice.bin", cmdline := "soffice --headless --convert-to pdf b.docx"
    createAge := some 10 }

/-! ## General lemmas about the delivery retry loop -/

theorem deliveryRun_attempts_le :
    ∀ (outs : List AttemptOutcome) (d : Nat),
      (deliveryRun d outs).attempts ≤ outs.length
  | [], _ => by simp [deliveryRun]
  | [o], _ => by cases o <;> simp [deliveryRun]
  | o :: o' :: rest, d => by
    cases o with
    | transportError =>
      simpa [deliveryRun] using
        Nat.succ_le_succ (deliveryRun_attempts_le (o' :: rest) (d * 2))
    | response st js =>
      by_cases h : st < 500
      · simp [deliveryRun, h]
      · simpa [deliveryRun, h] using
          Nat.succ_le_succ (deliveryRun_attempts_le (o' :: rest) d)

theorem deliveryRun_delays_eq :
    ∀ (outs : List AttemptOutcome) (d : Nat),
      (deliveryRun d outs).delays = doublingFrom d (countTransportRetried outs)
  | [], _ => by simp [deliveryRun, countTransportRetried, doublingFrom]
  | [o], _ => by cases o <;> simp [deliveryRun, countTransportRetried, doublingFrom]
  | o :: o' :: rest, d => by
    cases o with
    | transportError =>
      show d :: (deliveryRun (d * 2) (o' :: rest)).delays =
        doublingFrom d (countTransportRetried (o' :: rest) + 1)
      rw [deliveryRun_delays_eq (o' :: rest) (d * 2)]
      rfl
    | response st js =>
      by_cases h : st < 500
      · simp [deliveryRun, countTransportRetried, h, doublingFrom]
      · have ih := deliveryRun_delays_eq (o' :: rest) d
        simpa [deliveryRun, countTransportRetried, h] using ih

theorem doublingFrom_pos :
    ∀ (n d : Nat), 0 < d → ∀ x ∈ doublingFrom d n, 0 < x
  | 0, d, _ => by simp [doublingFrom]
  | n + 1, d, hd => by
    intro x hx
    rcases List.mem_cons.mp hx with h | h
    · omega
    · exact doublingFrom_pos n (d * 2) (by omega) x h

theorem doublingFrom_chain :
    ∀ (n d : Nat), 0 < d → List.Chain' (· < ·) (doublingFrom d n)
  | 0, d, _ => by simp [doublingFrom]
  | 1, d, _ => by simp [doublingFrom]
  | n + 2, d, hd =>
    List.Chain'.cons (by omega) (doublingFrom_chain (n + 1) (d * 2) (by omega))

theorem deliveryRun_replicate_transport :
    ∀ (n d : Nat), 0 < n →
      (deliveryRun d (List.replicate n .transportError)).attempts = n ∧
      (deliveryRun d (List.replicate n .transportError)).result =
        .raised "Gagal upload ke target setelah percobaan"
  | 1, d, _ => by simp [deliveryRun]
  | n + 2, d, _ => by
    have ih := deliveryRun_replicate_transport (n + 1) (d * 2) (by omega)
    have hcons : List.replicate (n + 1) AttemptOutcome.transportError =
        .transportError :: List.replicate n .transportError := List.replicate_succ _ _
    rw [List.replicate_succ, hcons]
    rw [hcons] at ih
    simp only [deliveryRun]
    exact ⟨by rw [ih.1], ih.2⟩

theorem deliveryRun_replicate_5xx :
    ∀ (n d st : Nat) (js : Option (List String)), 0 < n → 500 ≤ st →
      (deliveryRun d (List.replicate n (.response st js))).attempts = n ∧
      (deliveryRun d (List.replicate n (.response st js))).result = .responded st js
  | 1, d, st, js, _, hst => by simp [deliveryRun]
  | n + 2, d, st, js, _, hst => by
    have ih := deliveryRun_replicate_5xx (n + 1) d st js (by omega) hst
    have hlt : ¬ st < 500 := by omega
    have hcons : List.replicate (n + 1) (AttemptOutcome.response st js) =
        .response st js :: List.replicate n (.response st js) := List.replicate_succ _ _
    rw [List.replicate_succ, hcons]
    rw [hcons] at ih
    simp only [deliveryRun, hlt, if_false]
    exact ⟨by rw [ih.1], ih.2⟩

theorem cleanupCondition_iff (st : Nat) (js : Option (List String)) :
    cleanupCondition st js = true ↔
      200 ≤ st ∧ st < 300 ∧ ∃ keys, js = some keys ∧ "upload_data" ∈ keys := by
  cases js with
  | none => simp [cleanupCondition]
  | some keys =>
    simp only [cleanupCondition, Bool.and_eq_true, decide_eq_true_eq,
      Bool.not_eq_true', Option.some.injEq]
    constructor
    · rintro ⟨⟨h1, h2⟩, h3, h4⟩
      exact ⟨h1, h2, keys, rfl, List.elem_iff.mp h4⟩
    · rintro ⟨h1, h2, k, hk, hm⟩
      cases hk
      refine ⟨⟨h1, h2⟩, ?_, List.elem_iff.mpr hm⟩
      simp [List.isEmpty_iff]
      exact List.ne_nil_of_mem hm

theorem deliveredWithMarker_iff (t : DeliveryTrace) :
    DeliveredWithMarker t ↔
      ∃ st js, t.result = .responded st js ∧ cleanupCondition st js = true := by
  constructor
  · rintro ⟨st, keys, hres, h1, h2, h3⟩
    exact ⟨st, some keys, hres, (cleanupCondition_iff _ _).mpr ⟨h1, h2, keys, rfl, h3⟩⟩
  · rintro ⟨st, js, hres, hc⟩
    obtain ⟨h1, h2, keys, hk, hm⟩ := (cleanupCondition_iff _ _).mp hc
    exact ⟨st, keys, by rw [hres, hk], h1, h2, hm⟩

theorem oldEnough_iff (o : Option Nat) :
    oldEnough o = true ↔ ∃ age, o = some age ∧ 300 < age := by
  cases o <;> simp [oldEnough]

/-! ## Lemmas about the job pipeline after a successful conversion -/

theorem process_raised (nomor_urut endpoint_type : String) (env : Env) (msg : String)
    (h1 : invalidSafeName (sanitize nomor_urut) = false)
    (h2 : (orchestrate env.engines env.lo_ok env.word_ok).success = true)
    (hr : (deliver endpoint_type env.delivery).result = .raised msg) :
    (process_single_conversion nomor_urut endpoint_type env).result = .deliveryFailed msg ∧
    (process_single_conversion nomor_urut endpoint_type env).files =
      { docx := true, pdf := true } := by
  constructor <;> simp [process_single_conversion, h1, h2, hr]

theorem process_responded (nomor_urut endpoint_type : String) (env : Env)
    (st : Nat) (js : Option (List String))
    (h1 : invalidSafeName (sanitize nomor_urut) = false)
    (h2 : (orchestrate env.engines env.lo_ok env.word_ok).success = true)
    (hr : (deliver endpoint_type env.delivery).result = .responded st js) :
    (process_single_conversion nomor_urut endpoint_type env).result =
      .ok (cleanupCondition st js) st js ∧
    (process_single_conversion nomor_urut endpoint_type env).files =
      (if cleanupCondition st js then { docx := false, pdf := false }
       else { docx := true, pdf := true }) := by
  by_cases hc : cleanupCondition st js = true <;>
    constructor <;> simp [process_single_conversion, h1, h2, hr, hc]

theorem deliver_const_eq (endpoint_type : String) (outcomes : Nat → AttemptOutcome)
    (o : AttemptOutcome) (h : ∀ i, outcomes i = o) :
    deliver endpoint_type outcomes =
      deliveryRun 1 (List.replicate (max_retries endpoint_type + 1) o) := by
  unfold deliver
  congr 1
  rw [List.eq_replicate_iff]
  refine ⟨by simp, ?_⟩
  intro b hb
  obtain ⟨i, -, hib⟩ := List.mem_map.mp hb
  rw [← hib, h]

/-! ## Claim C1 — target-key validation at admission -/

/-- C1, counterexample: the claim says a request with `target_key = "../evil"`
is rejected synchronously at admission with no queue or status-table entry
created.  In the code, admission accepts it (only the filename extension is
checked) and creates both entries; moreover `"../evil"` sanitizes to
`".._evil"`, which the worker-side check also accepts, so the request is never
rejected at all. -/
theorem C1_counterexample :
    admitRequest "a.docx" "../evil" "req-1" { queue := [], table := [] } =
      Except.ok { queue := ["req-1"], table := [("req-1", Status.queued)] } ∧
    sanitize "../evil" = ".._evil" ∧
    invalidSafeName (sanitize "../evil") = false :=
  ⟨rfl, by decide, by decide⟩

/-- C1, amended: admission validates only the filename extension and always
creates a queue entry and a `"queued"` status entry, whatever the target key;
a target key that sanitizes to empty, `"."` or `".."` is rejected later, by
the worker inside `process_single_conversion`, before any artifact is written
or any engine attempted, and the job is then recorded as `"error"`. -/
theorem C1_validation_deferred_to_worker :
    (∀ (filename nomor_urut request_id : String) (s : AdmissionState),
        strEndsWith (lowercase filename) ".docx" = true →
        admitRequest filename nomor_urut request_id s =
          Except.ok { queue := s.queue ++ [request_id]
                      table := s.table ++ [(request_id, Status.queued)] }) ∧
    (∀ (nomor_urut endpoint_type : String) (env : Env),
        invalidSafeName (sanitize nomor_urut) = true →
        (process_single_conversion nomor_urut endpoint_type env).result =
          .validationError "nomor_urut tidak valid setelah sanitasi" ∧
        (process_single_conversion nomor_urut endpoint_type env).engineAttempts = [] ∧
        (process_single_conversion nomor_urut endpoint_type env).files =
          { docx := false, pdf := false } ∧
        workerTerminalStatus (process_single_conversion nomor_urut endpoint_type env).result =
          Status.error) := by
  constructor
  · intro f n r s h
    simp [admitRequest, h]
  · intro n e env h
    refine ⟨?_, ?_, ?_, ?_⟩ <;> simp [process_single_conversion, h, workerTerminalStatus]

/-- C1, witness: a `.docx` request with target key `".."` is admitted and
enqueued, and the worker later records it as `"error"`. -/
theorem C1_validation_deferred_to_worker_witness :
    admitRequest "report.docx" ".." "req-9" { queue := [], table := [] } =
      Except.ok { queue := ["req-9"], table := [("req-9", Status.queued)] } ∧
    workerTerminalStatus (process_single_conversion ".." "convert" envHappy).result =
      Status.error :=
  ⟨C1_validation_deferred_to_worker.1 "report.docx" ".." "req-9" ⟨[], []⟩ (by decide),
   (C1_validation_deferred_to_worker.2 ".." "convert" envHappy (by decide)).2.2.2⟩

/-! ## Claim C2 — fixed engine priority, one attempt per engine -/

/-- C2: engines are attempted in the fixed order LibreOffice then MS Word
(the attempt list is a sublist of `[libreoffice, ms_word]`), each engine is
invoked at most once per job, and when LibreOffice is unavailable while
MS Word is available, only MS Word is attempted. -/
theorem C2_engine_priority :
    ∀ (engines : Engines) (lo_ok word_ok : Bool),
      ((orchestrate engines lo_ok word_ok).attempts).Sublist
          [Engine.libreoffice, Engine.ms_word] ∧
      (orchestrate engines lo_ok word_ok).attempts.count Engine.libreoffice ≤ 1 ∧
      (orchestrate engines lo_ok word_ok).attempts.count Engine.ms_word ≤ 1 ∧
      (engines.libreoffice = false → engines.ms_word = true →
        (orchestrate engines lo_ok word_ok).attempts = [Engine.ms_word]) := by
  intro e lo wo
  rcases e with ⟨l, m⟩
  cases l <;> cases m <;> cases lo <;> cases wo <;> decide

/-- C2, witness: with LibreOffice unavailable and MS Word available, the
orchestrator attempts exactly `[ms_word]`. -/
theorem C2_engine_priority_witness :
    ((orchestrate { libreoffice := false, ms_word := true } true true).attempts).Sublist
        [Engine.libreoffice, Engine.ms_word] ∧
    (orchestrate { libreoffice := false, ms_word := true } true true).attempts =
      [Engine.ms_word] :=
  ⟨(C2_engine_priority ⟨false, true⟩ true true).1,
   (C2_engine_priority ⟨false, true⟩ true true).2.2.2 rfl rfl⟩

/-! ## Claim C3 — artifact cleanup iff delivery succeeded with marker -/

/-- C3: after a successful conversion, the local DOCX and PDF artifacts are
both deleted if and only if the delivery loop ends with a 2xx response whose
JSON body contains the `"upload_data"` key; every other delivery outcome
(4xx, final 5xx, raised transport error, unparseable or marker-less body)
leaves both artifacts present. -/
theorem C3_cleanup_iff_delivery_success :
    ∀ (nomor_urut endpoint_type : String) (env : Env),
      invalidSafeName (sanitize nomor_urut) = false →
      (orchestrate env.engines env.lo_ok env.word_ok).success = true →
      (((process_single_conversion nomor_urut endpoint_type env).files =
          { docx := false, pdf := false }) ↔
        DeliveredWithMarker (deliver endpoint_type env.delivery)) ∧
      (¬ DeliveredWithMarker (deliver endpoint_type env.delivery) →
        (process_single_conversion nomor_urut endpoint_type env).files =
          { docx := true, pdf := true }) := by
  intro n e env h1 h2
  cases hr : (deliver e env.delivery).result with
  | raised msg =>
    have hpf := (process_raised n e env msg h1 h2 hr).2
    constructor
    · rw [hpf]
      constructor
      · intro hcontra; cases hcontra
      · rintro ⟨st, keys, hres, -⟩
        rw [hr] at hres
        cases hres
    · intro _; exact hpf
  | responded st js =>
    have hpf := (process_responded n e env st js h1 h2 hr).2
    by_cases hc : cleanupCondition st js = true
    · rw [hpf, if_pos hc]
      constructor
      · constructor
        · intro _
          exact (deliveredWithMarker_iff _).mpr ⟨st, js, hr, hc⟩
        · intro _; rfl
      · intro hnot
        exact absurd ((deliveredWithMarker_iff _).mpr ⟨st, js, hr, hc⟩) hnot
    · rw [hpf, if_neg hc]
      have hnot : ¬ DeliveredWithMarker (deliver e env.delivery) := by
        intro hdwm
        obtain ⟨st', js', hres', hc'⟩ := (deliveredWithMarker_iff _).mp hdwm
        rw [hr] at hres'
        cases hres'
        exact hc hc'
      constructor
      · constructor
        · intro hcontra; cases hcontra
        · intro hdwm; exact absurd hdwm hnot
      · intro _; rfl

/-- C3, witness: with a `200 {"upload_data": ...}` delivery response, both
local artifacts are deleted. -/
theorem C3_cleanup_iff_delivery_success_witness :
    (process_single_conversion "A123" "convert" envHappy).files =
      { docx := false, pdf := false } :=
  (C3_cleanup_iff_delivery_success "A123" "convert" envHappy (by decide) (by decide)).1.mpr
    ⟨200, ["upload_data"], rfl, by omega, by omega, by simp⟩

/-! ## Claim C4 — terminal status when delivery keeps failing -/

/-- C4, counterexample: the claim says a job whose delivery keeps failing
with 5xx is recorded as Failed once retries are exhausted.  In the code a job
whose four delivery attempts all return 500 exits the retry loop normally,
returns the result dict, and is recorded `"completed"`, not `"error"`. -/
theorem C4_counterexample :
    (deliver "convert" env5xx.delivery).attempts = 4 ∧
    (deliver "convert" env5xx.delivery).result = .responded 500 none ∧
    (process_single_conversion "A123" "convert" env5xx).result = .ok false 500 none ∧
    workerTerminalStatus (process_single_conversion "A123" "convert" env5xx).result =
      Status.completed ∧
    workerTerminalStatus (process_single_conversion "A123" "convert" env5xx).result ≠
      Status.error := by
  refine ⟨by decide, rfl, rfl, rfl, by decide⟩

/-- C4, amended: a job whose delivery raises a transport error on every
attempt exhausts the retry budget (`max_retries + 1` attempts), the final
attempt re-raises, and the worker records the job as `"error"`; a job whose
delivery returns 5xx on every attempt also makes `max_retries + 1` attempts,
but then returns normally and is recorded `"completed"` (the 5xx status is
only visible inside the stored result). -/
theorem C4_terminal_status_after_retries :
    (∀ (nomor_urut endpoint_type : String) (env : Env),
        invalidSafeName (sanitize nomor_urut) = false →
        (orchestrate env.engines env.lo_ok env.word_ok).success = true →
        (∀ i, env.delivery i = .transportError) →
        (deliver endpoint_type env.delivery).attempts = max_retries endpoint_type + 1 ∧
        workerTerminalStatus
          (process_single_conversion nomor_urut endpoint_type env).result = Status.error) ∧
    (∀ (nomor_urut endpoint_type : String) (env : Env) (st : Nat) (js : Option (List String)),
        invalidSafeName (sanitize nomor_urut) = false →
        (orchestrate env.engines env.lo_ok env.word_ok).success = true →
        500 ≤ st →
        (∀ i, env.delivery i = .response st js) →
        (deliver endpoint_type env.delivery).attempts = max_retries endpoint_type + 1 ∧
        workerTerminalStatus
          (process_single_conversion nomor_urut endpoint_type env).result = Status.completed) := by
  constructor
  · intro n e env h1 h2 hd
    have heq := deliver_const_eq e env.delivery .transportError hd
    have hrep := deliveryRun_replicate_transport (max_retries e + 1) 1 (by omega)
    constructor
    · rw [heq, hrep.1]
    · have hr : (deliver e env.delivery).result =
          .raised "Gagal upload ke target setelah percobaan" := by rw [heq, hrep.2]
      rw [(process_raised n e env _ h1 h2 hr).1]
      rfl
  · intro n e env st js h1 h2 hst hd
    have heq := deliver_const_eq e env.delivery (.response st js) hd
    have hrep := deliveryRun_replicate_5xx (max_retries e + 1) 1 st js (by omega) hst
    constructor
    · rw [heq, hrep.1]
    · have hr : (deliver e env.delivery).result = .responded st js := by rw [heq, hrep.2]
      rw [(process_responded n e env st js h1 h2 hr).1]
      rfl

/-- C4, witness: all-transport-error delivery makes 4 attempts and ends
`"error"`; all-500 delivery makes 4 attempts and ends `"completed"`. -/
theorem C4_terminal_status_after_retries_witness :
    ((deliver "convert" envTransportFail.delivery).attempts = max_retries "convert" + 1 ∧
      workerTerminalStatus
        (process_single_conversion "A123" "convert" envTransportFail).result = Status.error) ∧
    ((deliver "convertDua" env5xx.delivery).attempts = max_retries "convertDua" + 1 ∧
      workerTerminalStatus
        (process_single_conversion "A123" "convertDua" env5xx).result = Status.completed) :=
  ⟨C4_terminal_status_after_retries.1 "A123" "convert" envTransportFail
      (by decide) (by decide) (fun _ => rfl),
   C4_terminal_status_after_retries.2 "A123" "convertDua" env5xx 500 none
      (by decide) (by decide) (by omega) (fun _ => rfl)⟩

/-! ## Claim C5 — exponential backoff in delivery retries -/

/-- C5, counterexample: the claim says a positive delay precedes every
delivery retry.  In the code a retry after a 5xx response happens immediately:
a first attempt answered 500 is followed by a second attempt with no sleep at
all (`delays = []`). -/
theorem C5_counterexample :
    (deliver "convert" (fun i => if i = 0 then .response 500 none
        else .response 200 (some ["upload_data"]))).attempts = 2 ∧
    (deliver "convert" (fun i => if i = 0 then .response 500 none
        else .response 200 (some ["upload_data"]))).delays = [] :=
  ⟨by decide, by decide⟩

/-- C5, amended: the number of delivery attempts never exceeds
`max_retries + 1`; the sleeps performed are exactly one per retried
transport-error attempt (retries after a 5xx response sleep nothing), and
those delays form the doubling sequence starting at 1 second — hence every
performed delay is positive and the delays strictly increase. -/
theorem C5_backoff_policy :
    ∀ (endpoint_type : String) (outcomes : Nat → AttemptOutcome),
      (deliver endpoint_type outcomes).attempts ≤ max_retries endpoint_type + 1 ∧
      (deliver endpoint_type outcomes).delays =
        doublingFrom 1 (countTransportRetried
          ((List.range (max_retries endpoint_type + 1)).map outcomes)) ∧
      (∀ x ∈ (deliver endpoint_type outcomes).delays, 0 < x) ∧
      List.Chain' (· < ·) (deliver endpoint_type outcomes).delays := by
  intro e outs
  refine ⟨?_, ?_, ?_, ?_⟩
  · have := deliveryRun_attempts_le ((List.range (max_retries e + 1)).map outs) 1
    simpa [deliver] using this
  · exact deliveryRun_delays_eq _ 1
  · show ∀ x ∈ (deliveryRun 1 _).delays, 0 < x
    rw [deliveryRun_delays_eq _ 1]
    exact doublingFrom_pos _ 1 (by omega)
  · show List.Chain' _ (deliveryRun 1 _).delays
    rw [deliveryRun_delays_eq _ 1]
    exact doublingFrom_chain _ 1 (by omega)

/-- C5, witness: the backoff policy evaluated on an all-transport-error
delivery. -/
theorem C5_backoff_policy_witness :
    (deliver "convert" (fun _ => .transportError)).attempts ≤ max_retries "convert" + 1 ∧
    (deliver "convert" (fun _ => .transportError)).delays =
      doublingFrom 1 (countTransportRetried
        ((List.range (max_retries "convert" + 1)).map (fun _ => .transportError))) ∧
    (∀ x ∈ (deliver "convert" (fun _ => .transportError)).delays, 0 < x) ∧
    List.Chain' (· < ·) (deliver "convert" (fun _ => .transportError)).delays :=
  C5_backoff_policy "convert" (fun _ => .transportError)

/-! ## Claim C6 — per-endpoint retry budget and timeouts -/

/-- C6, counterexample: the claim says the `convertDua` variant has a higher
maximum attempt count than `convert`.  In the code `max_retries` is 3 in both
branches — the counts are equal. -/
theorem C6_counterexample :
    max_retries "convertDua" = 3 ∧ max_retries "convert" = 3 := by decide

/-- C6, amended: both endpoint variants use the same retry budget
(`max_retries = 3`, i.e. up to 4 attempts); only the HTTP timeouts differ,
with `convertDua` using the longer 90 s total / 15 s connect timeouts against
60 s / 10 s for `convert`, and each variant posting to its own path suffix. -/
theorem C6_endpoint_config :
    max_retries "convertDua" = max_retries "convert" ∧
    timeout_config "convertDua" = { total := 90, connect := 15 } ∧
    timeout_config "convert" = { total := 60, connect := 10 } ∧
    (timeout_config "convert").total < (timeout_config "convertDua").total ∧
    (timeout_config "convert").connect < (timeout_config "convertDua").connect ∧
    post_url_suffix "convertDua" = "/check/responseBalikConvertDua" ∧
    post_url_suffix "convert" = "/check/responseBalikConvert" :=
  ⟨by decide, rfl, rfl, by decide, by decide, rfl, rfl⟩

/-! ## Claim C7 — invoker behaviour on timeout -/

/-- C7, counterexample: the claim says both invokers terminate the external
work on timeout (graceful terminate, then kill).  The MS Word (docx2pdf)
invoker's timeout handler performs neither a terminate nor a kill — its only
action is `future.cancel()`, which cannot stop an already-running task. -/
theorem C7_counterexample :
    InvokerEffect.procTerminate ∉ wordTimeoutEffects ∧
    InvokerEffect.procKill ∉ wordTimeoutEffects ∧
    wordTimeoutEffects = [InvokerEffect.futureCancel] := by decide

/-- C7, amended: on timeout the LibreOffice invoker terminates its child
process (and kills it when it does not exit within the 5 s grace window) and
returns failure; the MS Word invoker returns failure too, but performs no
process termination at all — it only cancels the pending future, leaving the
external work to the process reaper. -/
theorem C7_timeout_termination :
    (∀ exitsWithinGrace : Bool,
        InvokerEffect.procTerminate ∈ libreofficeTimeoutEffects exitsWithinGrace ∧
        (exitsWithinGrace = false →
          InvokerEffect.procKill ∈ libreofficeTimeoutEffects exitsWithinGrace)) ∧
    libreofficeTimeoutReturns = false ∧
    (InvokerEffect.procTerminate ∉ wordTimeoutEffects ∧
      InvokerEffect.procKill ∉ wordTimeoutEffects) ∧
    wordTimeoutReturns = false := by
  refine ⟨?_, rfl, by decide, rfl⟩
  intro b
  cases b with
  | false => exact ⟨by decide, fun _ => by decide⟩
  | true => exact ⟨by decide, fun h => Bool.noConfusion h⟩

/-- C7, witness: when the LibreOffice child ignores the graceful terminate,
the handler both terminates and kills it. -/
theorem C7_timeout_termination_witness :
    InvokerEffect.procTerminate ∈ libreofficeTimeoutEffects false ∧
    InvokerEffect.procKill ∈ libreofficeTimeoutEffects false :=
  ⟨(C7_timeout_termination.1 false).1, (C7_timeout_termination.1 false).2 rfl⟩

/-! ## Claim C8 — the status write sequence of a job -/

/-- C8: the sequence of status values written for one admitted request is
exactly `queued → processing → completed` or `queued → processing → error`;
no other sequence occurs and nothing is written after the single terminal
status. -/
theorem C8_status_path :
    ∀ (nomor_urut endpoint_type : String) (env : Env),
      statusWrites nomor_urut endpoint_type env =
        [Status.queued, Status.processing, Status.completed] ∨
      statusWrites nomor_urut endpoint_type env =
        [Status.queued, Status.processing, Status.error] := by
  intro n e env
  cases h : (process_single_conversion n e env).result <;>
    simp [statusWrites, workerTerminalStatus, h]

/-- C8, witness: the status path of a concrete happy-path job. -/
theorem C8_status_path_witness :
    statusWrites "A123" "convert" envHappy =
        [Status.queued, Status.processing, Status.completed] ∨
      statusWrites "A123" "convert" envHappy =
        [Status.queued, Status.processing, Status.error] :=
  C8_status_path "A123" "convert" envHappy

/-! ## Claim C9 — the reaper's age threshold -/

/-- C9, counterexample: the claim says the reaper never kills an engine
process younger than the grace threshold, including in the fallback sweep.
Without psutil, the fallback sweep kills a LibreOffice headless process that
is only 10 seconds old (while the psutil sweep spares the same process). -/
theorem C9_counterexample :
    cleanup_hanging_processes false false [procYoung] = [procYoung] ∧
    procYoung.createAge = some 10 ∧
    cleanup_hanging_processes true false [procYoung] = [] :=
  ⟨by decide, rfl, by decide⟩

/-- C9, amended: every process the psutil sweep terminates has a readable
creation time and is strictly older than 300 seconds (processes with
unreadable creation time are never killed); the fallback sweep instead kills
every process matching the engine name/command-line patterns, regardless of
age. -/
theorem C9_reaper_age_threshold :
    (∀ (platformWin : Bool) (procs : List ProcInfo) (p : ProcInfo),
        p ∈ cleanup_psutil platformWin procs →
        ∃ age, p.createAge = some age ∧ 300 < age) ∧
    (∀ (platformWin : Bool) (procs : List ProcInfo) (p : ProcInfo),
        p ∈ cleanup_fallback platformWin procs ↔
          p ∈ procs ∧ fallbackKillDecision platformWin p = true) := by
  constructor
  · intro win procs p hp
    have hd : psutilKillDecision win p = true := List.of_mem_filter hp
    unfold psutilKillDecision at hd
    split at hd
    · exact (oldEnough_iff _).mp hd
    · split at hd
      · exact (oldEnough_iff _).mp hd
      · exact absurd hd (by simp)
  · intro win procs p
    simp [cleanup_fallback, List.mem_filter]

/-- C9, witness: the psutil guarantee applied to a 360 s old process, and the
fallback characterization applied to a 10 s old process. -/
theorem C9_reaper_age_threshold_witness :
    (∃ age, procOld.createAge = some age ∧ 300 < age) ∧
    (procYoung ∈ cleanup_fallback false [procYoung] ↔
      procYoung ∈ [procYoung] ∧ fallbackKillDecision false procYoung = true) :=
  ⟨C9_reaper_age_threshold.1 false [procOld] procOld (by decide),
   C9_reaper_age_threshold.2 false [procYoung] procYoung⟩

/-! ## Claim C10 — artifact removal on conversion failure -/

/-- C10: when every eligible engine has failed (or none was available), the
worker removes both the saved DOCX and any partially produced PDF before the
exception is raised, so a conversion failure — unlike a delivery failure —
leaves no local artifacts, and the job is recorded `"error"`. -/
theorem C10_conversion_failure_removes_artifacts :
    ∀ (nomor_urut endpoint_type : String) (env : Env),
      invalidSafeName (sanitize nomor_urut) = false →
      (orchestrate env.engines env.lo_ok env.word_ok).success = false →
      (process_single_conversion nomor_urut endpoint_type env).files =
        { docx := false, pdf := false } ∧
      workerTerminalStatus (process_single_conversion nomor_urut endpoint_type env).result =
        Status.error := by
  intro n e env h1 h2
  simp [process_single_conversion, h1, h2, cleanupOnConversionFailure, workerTerminalStatus]

/-- C10, witness: with no engine available, the job ends `"error"` with no
artifacts on disk. -/
theorem C10_conversion_failure_removes_artifacts_witness :
    (process_single_conversion "A123" "convert" envNoEngines).files =
      { docx := false, pdf := false } ∧
    workerTerminalStatus (process_single_conversion "A123" "convert" envNoEngines).result =
      Status.error :=
  C10_conversion_failure_removes_artifacts "A123" "convert" envNoEngines (by decide) (by decide)

end ConverterService
